import Mathlib

/-!
Verification of the dynamic table-driven CRUD router of `src/routes/crud.js`
(the second router in that file: `validateTableName` middleware, the dynamic
`GET /:table`, `POST /:table`, `PUT /:table/:id`, `DELETE /:table/:id`
handlers, and the `POST /create-table` passthrough).

Modelling conventions:
* A database row is an association list from column name to value; values are
  kept as strings (the driver passes them through untyped).
* A table is a list of rows; the catalog of the public schema is a list of
  table names.
* The SQL strings and positional parameter lists are built exactly as the
  JavaScript handlers build them; execution of the built statements against
  the PostgreSQL backend (an external collaborator of the repository) is
  modelled by small functional semantics, one per statement shape.
* Handler results record the HTTP status, the response payload, the new
  database state, and the trace of (sql, parameters) pairs sent to the pool.
-/

namespace DataSetup

/-- A database row: association list from column name to column value. -/
abbrev Row := List (String × String)

/-- Model of Object.keys(data) for a JSON payload, in insertion order. -/
def keysOf (data : Row) : List String := data.map Prod.fst

/-- Model of Object.values(data) for a JSON payload, in insertion order. -/
def valuesOf (data : Row) : List String := data.map Prod.snd

/-- Comma-joined column list of the insert handler (crud.js line 421). -/
def columnsOf (data : Row) : String := String.intercalate ", " (keysOf data)

/-- Comma-joined positional placeholder list built on crud.js line 423. -/
def placeholders (n : Nat) : String :=
  String.intercalate ", " ((List.range n).map (fun i => "$" ++ toString (i + 1)))

/-- SQL text built by the dynamic insert handler (crud.js line 426). -/
def insertSQL (table : String) (data : Row) : String :=
  "INSERT INTO " ++ table ++ " (" ++ columnsOf data ++ ") VALUES (" ++
    placeholders (valuesOf data).length ++ ") RETURNING *"

/-- Comma-joined SET clause of the update handler, mapping each payload key
with its index to a fragment of shape key = $(i+1) (crud.js lines 481-483). -/
def updatesOf (data : Row) : String :=
  String.intercalate ", "
    ((keysOf data).enum.map (fun p => p.2 ++ " = $" ++ toString (p.1 + 1)))

/-- SQL text built by the dynamic update handler (crud.js line 487). -/
def updateSQL (table : String) (data : Row) : String :=
  "UPDATE " ++ table ++ " SET " ++ updatesOf data ++ " WHERE id = $" ++
    toString ((valuesOf data).length + 1) ++ " RETURNING *"

/-- SQL text built by the dynamic delete handler (crud.js line 529). -/
def deleteSQL (table : String) : String :=
  "DELETE FROM " ++ table ++ " WHERE id = $1"

/-- SQL text of the paginated select (crud.js line 366). -/
def selectSQL (table : String) : String :=
  "SELECT * FROM " ++ table ++ " LIMIT $1 OFFSET $2"

/-- SQL text of the count query (crud.js line 363). -/
def countSQL (table : String) : String :=
  "SELECT COUNT(*) FROM " ++ table

/-- The membership test of the `validateTableName` middleware
(crud.js line 285): `tableNames.includes(table)`, an exact, case-sensitive
string comparison against the catalog of the public schema. -/
def isValidTable (catalog : List String) (table : String) : Bool :=
  catalog.contains table

/-- Numeric value of a character as a digit (used by the parseInt model);
returns 99 for a non-digit so that the `< radix` test fails. -/
def digitValue (c : Char) : Nat :=
  if c.isDigit then c.toNat - '0'.toNat
  else if 'a' ≤ c ∧ c ≤ 'z' then c.toNat - 'a'.toNat + 10
  else if 'A' ≤ c ∧ c ≤ 'Z' then c.toNat - 'A'.toNat + 10
  else 99

/-- Accumulate the longest prefix of digits of the given radix. -/
def parseNatAux (radix : Nat) (acc : Nat) : List Char → Nat
  | [] => acc
  | c :: cs =>
      if digitValue c < radix then parseNatAux radix (acc * radix + digitValue c) cs
      else acc

/-- Parse a non-empty digit prefix; `none` when the first character is not a
digit of the radix (JavaScript then yields NaN). -/
def parseNatPrefix (radix : Nat) : List Char → Option Nat
  | [] => none
  | c :: cs =>
      if digitValue c < radix then some (parseNatAux radix (digitValue c) cs)
      else none

/-- Model of JavaScript `parseInt(s)` with no radix argument: skip leading
whitespace, read an optional sign, detect a `0x`/`0X` hexadecimal prefix
(otherwise radix 10), then parse the longest digit prefix; `none` models NaN. -/
def jsParseInt (s : String) : Option Int :=
  let cs := s.toList.dropWhile (fun c => c.isWhitespace)
  let signed : Int × List Char :=
    match cs with
    | '-' :: rest => (-1, rest)
    | '+' :: rest => (1, rest)
    | _ => (1, cs)
  let based : Nat × List Char :=
    match signed.2 with
    | '0' :: 'x' :: rest => (16, rest)
    | '0' :: 'X' :: rest => (16, rest)
    | _ => (10, signed.2)
  (parseNatPrefix based.1 based.2).map (fun n => signed.1 * (n : Int))

/-- The `parseInt(q) || d` idiom of crud.js lines 358-359: a missing query
parameter parses to NaN, and both NaN and 0 are falsy, so they fall back to
the default `d`. -/
def parseIntOr (d : Int) (q : Option String) : Int :=
  match q with
  | none => d
  | some s =>
      match jsParseInt s with
      | none => d
      | some 0 => d
      | some n => n

/-- Math.ceil(t / l) as computed on line 367 for the total item count `t` and
the page size `l`, as an integer formula; the success path of the handler
only reaches this with `l ≥ 1`, where the formula equals the ceiling of the
exact division (theorem mathCeilDiv_eq_ceil below). -/
def mathCeilDiv (t : Nat) (l : Int) : Int := ((t : Int) + l - 1) / l

/-- Whether the id column of a row holds the given id value; models the
WHERE id comparison of the built statements. -/
def idMatches (id : String) (r : Row) : Bool := r.lookup "id" == some id

/-- Apply a `SET k1 = $1, ...` clause to one row: every column named in the
payload takes the bound value, every other column keeps its value. -/
def setCols (data : Row) (r : Row) : Row :=
  r.map (fun kv => (kv.1, (data.lookup kv.1).getD kv.2))

/-- PostgreSQL semantics of `SELECT * FROM t LIMIT $1 OFFSET $2` with bound
integer parameters: a negative limit or offset is an error; otherwise skip
`offset` rows and return at most `limit` rows. -/
def dbSelect (rows : List Row) (limit offset : Int) : Except String (List Row) :=
  if limit < 0 then .error "LIMIT must not be negative"
  else if offset < 0 then .error "OFFSET must not be negative"
  else .ok ((rows.drop offset.toNat).take limit.toNat)

/-- PostgreSQL semantics of the INSERT the handler builds, for payloads whose
keys name existing columns: an empty column list gives the statement
`INSERT INTO t () VALUES ()`, a syntax error; otherwise the row is appended
and returned (`RETURNING *`).  Bound parameters are stored as opaque data,
never parsed as SQL. -/
def dbInsert (rows : List Row) (data : Row) : Except String (List Row × Row) :=
  if data.isEmpty then .error "syntax error at or near \x22)\x22"
  else .ok (rows ++ [data], data)

/-- PostgreSQL semantics of the UPDATE the handler builds, for payloads whose
keys name existing columns: an empty payload gives an empty SET clause, a
syntax error; otherwise every row whose id matches gets the named columns
set, and the updated rows are returned (`RETURNING *`). -/
def dbUpdate (rows : List Row) (id : String) (data : Row) :
    Except String (List Row × List Row) :=
  if data.isEmpty then .error "syntax error at or near \x22WHERE\x22"
  else .ok (rows.map (fun r => if idMatches id r then setCols data r else r),
            (rows.filter (idMatches id)).map (setCols data))

/-- PostgreSQL semantics of `DELETE FROM t WHERE id = $1`: remove every row
whose id matches; matching zero rows is not an error. -/
def dbDelete (rows : List Row) (id : String) : List Row :=
  rows.filter (fun r => !(idMatches id r))

/-- Result of the paginated GET handler. -/
structure GetResult where
  status : Nat
  error : Option String := none
  totalItems : Nat := 0
  currentPage : Int := 0
  totalPages : Int := 0
  rows : List Row := []
  queries : List (String × List String) := []
deriving DecidableEq

/-- Result of an insert / update / delete handler. -/
structure WriteResult where
  status : Nat
  error : Option String := none
  db : List Row
  row : Option Row := none
  queries : List (String × List String) := []
deriving DecidableEq

/-- The `GET /:table` route (crud.js lines 356-379), composed with the
`validateTableName` middleware (lines 274-293): reject an unknown table with
400 before any dynamic query; otherwise run the count query and the
limit/offset select, defaulting page to 1 and limit to 10. -/
def getTable (catalog : List String) (db : List Row) (table : String)
    (pageQ limitQ : Option String) : GetResult :=
  if isValidTable catalog table = false then
    { status := 400, error := some ("Invalid table name: " ++ table) }
  else
    let page := parseIntOr 1 pageQ
    let limit := parseIntOr 10 limitQ
    let offset := (page - 1) * limit
    let qs := [(countSQL table, ([] : List String)),
               (selectSQL table, [toString limit, toString offset])]
    match dbSelect db limit offset with
    | .error e => { status := 500, error := some e, queries := qs }
    | .ok rows =>
        { status := 200, totalItems := db.length, currentPage := page,
          totalPages := mathCeilDiv db.length limit, rows := rows, queries := qs }

/-- The `POST /:table` route (crud.js lines 416-435), composed with the
`validateTableName` middleware: reject an unknown table with 400 before any
dynamic query; otherwise build the INSERT from the payload keys verbatim
(no identifier check) and bind the payload values positionally; a database
error is reported as 500. -/
def postTable (catalog : List String) (db : List Row) (table : String)
    (data : Row) : WriteResult :=
  if isValidTable catalog table = false then
    { status := 400, error := some ("Invalid table name: " ++ table), db := db }
  else
    match dbInsert db data with
    | .ok res =>
        { status := 201, db := res.1, row := some res.2,
          queries := [(insertSQL table data, valuesOf data)] }
    | .error e =>
        { status := 500,
          error := some ("Error inserting data into table " ++ table ++ ": " ++ e),
          db := db, queries := [(insertSQL table data, valuesOf data)] }

/-- The `PUT /:table/:id` route (crud.js lines 476-496), composed with the
`validateTableName` middleware: build the SET clause from the payload keys
verbatim, bind the payload values at $1..$n and the id at $(n+1); respond
with the first returned row (`result.rows[0]`, absent when no row matched). -/
def putTable (catalog : List String) (db : List Row) (table : String)
    (id : String) (data : Row) : WriteResult :=
  if isValidTable catalog table = false then
    { status := 400, error := some ("Invalid table name: " ++ table), db := db }
  else
    match dbUpdate db id data with
    | .ok res =>
        { status := 200, db := res.1, row := res.2.head?,
          queries := [(updateSQL table data, valuesOf data ++ [id])] }
    | .error e =>
        { status := 500,
          error := some ("Error updating data in table " ++ table ++ ": " ++ e),
          db := db, queries := [(updateSQL table data, valuesOf data ++ [id])] }

/-- The `DELETE /:table/:id` route (crud.js lines 525-535), composed with the
`validateTableName` middleware: delete every row whose id matches and respond
204 whether or not any row matched. -/
def deleteTable (catalog : List String) (db : List Row) (table : String)
    (id : String) : WriteResult :=
  if isValidTable catalog table = false then
    { status := 400, error := some ("Invalid table name: " ++ table), db := db }
  else
    { status := 204, db := dbDelete db id,
      queries := [(deleteSQL table, [id])] }

/-- A single path segment of a registered POST route: `/:table` matches any
segment, a literal matches only itself. -/
inductive SegPattern
  | param
  | lit (s : String)
deriving DecidableEq

/-- Whether a registered pattern matches a concrete path segment. -/
def segMatches (p : SegPattern) (seg : String) : Bool :=
  match p with
  | .param => true
  | .lit s => s == seg

/-- The single-segment POST routes of the dynamic router in registration
order: `/:table` at crud.js line 416, then `/create-table` at line 571. -/
def postRoutes : List SegPattern := [.param, .lit "create-table"]

/-- Index of the first pattern in the list that matches the segment; models
the first-match dispatch of the Express router. -/
def firstMatchIdx (pats : List SegPattern) (seg : String) : Option Nat :=
  match pats with
  | [] => none
  | p :: rest =>
      if segMatches p seg then some 0
      else (firstMatchIdx rest seg).map (fun i => i + 1)

/-- Express dispatch for a single-segment POST path: the first registered
route whose pattern matches handles the request (index 0 is the dynamic
insert handler, index 1 the CREATE TABLE passthrough). -/
def dispatchPost (seg : String) : Option Nat :=
  firstMatchIdx postRoutes seg

/-- The identifier-safe character class of the spec (section 3: column names
"must be restricted to a syntactically safe character set (alphanumeric +
underscore)"), stated from the words of the spec for comparison with the code. -/
def specIdentSafe (s : String) : Bool :=
  s.toList.all (fun c => c.isAlphanum || c == '_')

/-! ### Helper lemmas -/

theorem mathCeilDiv_mul_lt (t : Nat) (l : Int) (hl : 1 ≤ l) :
    (mathCeilDiv t l - 1) * l < (t : Int) := by
  have hl0 : (0 : Int) < l := by omega
  have hdm := Int.ediv_add_emod ((t : Int) + l - 1) l
  have hr0 : 0 ≤ ((t : Int) + l - 1) % l := Int.emod_nonneg _ (by omega)
  have h1 : (mathCeilDiv t l - 1) * l = l * (((t : Int) + l - 1) / l) - l := by
    unfold mathCeilDiv; ring
  rw [h1]; linarith

theorem le_mathCeilDiv_mul (t : Nat) (l : Int) (hl : 1 ≤ l) :
    (t : Int) ≤ mathCeilDiv t l * l := by
  have hl0 : (0 : Int) < l := by omega
  have hdm := Int.ediv_add_emod ((t : Int) + l - 1) l
  have hr1 : ((t : Int) + l - 1) % l < l := Int.emod_lt_of_pos _ hl0
  have h2 : mathCeilDiv t l * l = l * (((t : Int) + l - 1) / l) := by
    unfold mathCeilDiv; ring
  rw [h2]; linarith

theorem mathCeilDiv_eq_ceil (t : Nat) (l : Int) (hl : 1 ≤ l) :
    mathCeilDiv t l = ⌈(t : ℚ) / (l : ℚ)⌉ := by
  have hl0 : (0 : Int) < l := by omega
  have hlq : (0 : ℚ) < (l : ℚ) := by exact_mod_cast hl0
  symm
  rw [Int.ceil_eq_iff]
  refine ⟨?_, ?_⟩
  · rw [lt_div_iff₀ hlq]
    exact_mod_cast mathCeilDiv_mul_lt t l hl
  · rw [div_le_iff₀ hlq]
    exact_mod_cast le_mathCeilDiv_mul t l hl

theorem isValidTable_iff (catalog : List String) (t : String) :
    isValidTable catalog t = true ↔ t ∈ catalog := by
  simp [isValidTable]

theorem isValidTable_eq_false (catalog : List String) (t : String)
    (h : t ∉ catalog) : isValidTable catalog t = false := by
  cases hb : isValidTable catalog t
  · rfl
  · exact absurd ((isValidTable_iff catalog t).mp hb) h

/-- On a valid table with positive parsed page and limit, the GET handler
takes its success path: 200, total count from the table, current page echoed,
ceiling total pages, a drop/take row window, and the count query followed by
the parameterized select (crud.js lines 356-374). -/
theorem getTable_eq_ok (catalog : List String) (db : List Row) (table : String)
    (pageQ limitQ : Option String)
    (hvalid : isValidTable catalog table = true)
    (hp1 : 1 ≤ parseIntOr 1 pageQ) (hl1 : 1 ≤ parseIntOr 10 limitQ) :
    getTable catalog db table pageQ limitQ =
      { status := 200,
        totalItems := db.length,
        currentPage := parseIntOr 1 pageQ,
        totalPages := mathCeilDiv db.length (parseIntOr 10 limitQ),
        rows := (db.drop ((parseIntOr 1 pageQ - 1) * parseIntOr 10 limitQ).toNat).take
                  (parseIntOr 10 limitQ).toNat,
        queries := [(countSQL table, []),
                    (selectSQL table,
                     [toString (parseIntOr 10 limitQ),
                      toString ((parseIntOr 1 pageQ - 1) * parseIntOr 10 limitQ)])] } := by
  have hL : ¬ (parseIntOr 10 limitQ < 0) := by omega
  have hOff : ¬ ((parseIntOr 1 pageQ - 1) * parseIntOr 10 limitQ < 0) :=
    not_lt.mpr (mul_nonneg (by omega) (by omega))
  simp [getTable, hvalid, dbSelect, hL, hOff]

theorem lookup_setCols (data r : Row) (k : String) :
    (setCols data r).lookup k = (r.lookup k).map (fun v => (data.lookup k).getD v) := by
  induction r with
  | nil => rfl
  | cons kv tl ih =>
      obtain ⟨a, b⟩ := kv
      cases hk : (k == a)
      · simpa [setCols, List.lookup, hk] using ih
      · have hka : k = a := eq_of_beq hk
        subst hka
        simp [setCols, List.lookup]

theorem head?_filter_eq_find? (p : Row → Bool) (l : List Row) :
    (l.filter p).head? = l.find? p := by
  induction l with
  | nil => rfl
  | cons hd tl ih => cases hp : p hd <;> simp [List.filter_cons, List.find?_cons, hp, ih]

/-! ### Claims -/

/-- C1: the claim says every payload key is restricted to the identifier-safe
character class before concatenation and that a payload with an unsafe key is
rejected; the code has no such check: with an unsafe key the insert handler
splices the key verbatim into the SQL text, issues that query, and never
rejects the request with a 4xx. -/
theorem c1_unsafe_key_spliced_not_rejected :
    specIdentSafe "x; DROP TABLE items; --" = false ∧
    insertSQL "items" [("x; DROP TABLE items; --", "1")] =
      "INSERT INTO items (x; DROP TABLE items; --) VALUES ($1) RETURNING *" ∧
    (postTable ["items"] [] "items" [("x; DROP TABLE items; --", "1")]).queries =
      [("INSERT INTO items (x; DROP TABLE items; --) VALUES ($1) RETURNING *", ["1"])] ∧
    ¬ ((postTable ["items"] [] "items" [("x; DROP TABLE items; --", "1")]).status = 400) := by
  refine ⟨by decide, by decide, by decide, by decide⟩

/-- C6: the claim says an empty payload fails with InvalidColumnPayload as a
4xx; the code instead builds the malformed statement INSERT INTO items ()
VALUES (), the database rejects it, and the catch branch reports the generic
500, so the failure is a 5xx, not a 4xx. -/
theorem c6_empty_payload_is_500 :
    insertSQL "items" [] = "INSERT INTO items () VALUES () RETURNING *" ∧
    (postTable ["items"] [] "items" []).status = 500 ∧
    ¬ (400 ≤ (postTable ["items"] [] "items" []).status ∧
        (postTable ["items"] [] "items" []).status < 500) := by
  refine ⟨by decide, by decide, by decide⟩

/-- C9: a POST to /api/create-table is dispatched to the dynamic insert
handler (the first registered matching POST route), whose table-name
validator rejects it with a 400 invalid-table response when no catalog table
is named create-table and issues no query; the CREATE TABLE passthrough
(route index 1) is unreachable for every path segment. -/
theorem c9_create_table_route_shadowed (catalog : List String) (db : List Row)
    (data : Row) (h : "create-table" ∉ catalog) :
    dispatchPost "create-table" = some 0 ∧
    (∀ seg : String, dispatchPost seg = some 0) ∧
    (∀ seg : String, dispatchPost seg ≠ some 1) ∧
    (postTable catalog db "create-table" data).status = 400 ∧
    (postTable catalog db "create-table" data).error =
      some "Invalid table name: create-table" ∧
    (postTable catalog db "create-table" data).queries = [] := by
  have hv := isValidTable_eq_false catalog "create-table" h
  refine ⟨rfl, fun seg => rfl, fun seg => by simp [dispatchPost, postRoutes, firstMatchIdx, segMatches], ?_, ?_, ?_⟩ <;>
    simp [postTable, hv]

/-- Witness for C9 at a concrete catalog that lacks a create-table entry. -/
theorem c9_witness :
    dispatchPost "create-table" = some 0 ∧
    (postTable ["items"] [] "create-table" [("name", "x")]).status = 400 := by
  have h := c9_create_table_route_shadowed ["items"] [] [("name", "x")] (by decide)
  exact ⟨h.1, h.2.2.2.1⟩

/-- C3: table-name validation accepts exactly the strings in the live catalog
of the public schema (an exact, case-sensitive comparison), and a request
with an accepted table proceeds to its handler; every other string -
including one differing only in letter case and one containing SQL
metacharacters - is rejected with a 400 invalid-table response by all four
dynamic handlers before any dynamic query is issued. -/
theorem c3_table_validation_exact (catalog : List String) (db : List Row)
    (table id : String) (data : Row) (pageQ limitQ : Option String) :
    (isValidTable catalog table = true ↔ table ∈ catalog) ∧
    (table ∈ catalog → (deleteTable catalog db table id).status = 204) ∧
    (table ∉ catalog →
      (getTable catalog db table pageQ limitQ).status = 400 ∧
      (getTable catalog db table pageQ limitQ).error =
        some ("Invalid table name: " ++ table) ∧
      (getTable catalog db table pageQ limitQ).queries = [] ∧
      (postTable catalog db table data).status = 400 ∧
      (postTable catalog db table data).queries = [] ∧
      (putTable catalog db table id data).status = 400 ∧
      (putTable catalog db table id data).queries = [] ∧
      (deleteTable catalog db table id).status = 400 ∧
      (deleteTable catalog db table id).queries = []) := by
  refine ⟨isValidTable_iff catalog table, ?_, ?_⟩
  · intro hmem
    have hv : isValidTable catalog table = true := (isValidTable_iff catalog table).mpr hmem
    simp [deleteTable, hv]
  · intro hnm
    have hv := isValidTable_eq_false catalog table hnm
    refine ⟨?_, ?_, ?_, ?_, ?_, ?_, ?_, ?_, ?_⟩ <;>
      simp [getTable, postTable, putTable, deleteTable, hv]

/-- Witness for C3: the catalog entry itself is accepted; a case-variant and
a metacharacter string are rejected with 400 and no query. -/
theorem c3_witness :
    isValidTable ["items"] "items" = true ∧
    isValidTable ["items"] "Items" = false ∧
    (getTable ["items"] [] "items; DROP TABLE items" none none).status = 400 ∧
    (getTable ["items"] [] "items; DROP TABLE items" none none).queries = [] := by
  have h1 := c3_table_validation_exact ["items"] [] "items" "1" [] none none
  have h2 := c3_table_validation_exact ["items"] [] "items; DROP TABLE items" "1" [] none none
  exact ⟨h1.1.mpr (by decide), isValidTable_eq_false ["items"] "Items" (by decide),
    (h2.2.2 (by decide)).1, (h2.2.2 (by decide)).2.2.1⟩

/-- C4: with page and limit absent the defaults are 1 and 10; the select is
executed with bound limit and offset = (page-1)*limit; the total item count
comes from a separate count query; and totalPages is the ceiling of
totalItems divided by limit. -/
theorem c4_pagination_math (catalog : List String) (db : List Row)
    (table : String) (pageQ limitQ : Option String) (page limit : Int)
    (hvalid : isValidTable catalog table = true)
    (hp : parseIntOr 1 pageQ = page) (hl : parseIntOr 10 limitQ = limit)
    (hp1 : 1 ≤ page) (hl1 : 1 ≤ limit) :
    parseIntOr 1 none = 1 ∧ parseIntOr 10 none = 10 ∧
    (getTable catalog db table pageQ limitQ).queries =
      [(countSQL table, []),
       (selectSQL table, [toString limit, toString ((page - 1) * limit)])] ∧
    (getTable catalog db table pageQ limitQ).rows =
      (db.drop ((page - 1) * limit).toNat).take limit.toNat ∧
    (getTable catalog db table pageQ limitQ).totalItems = db.length ∧
    (getTable catalog db table pageQ limitQ).totalPages =
      ⌈(db.length : ℚ) / (limit : ℚ)⌉ := by
  subst hp; subst hl
  rw [getTable_eq_ok catalog db table pageQ limitQ hvalid hp1 hl1]
  exact ⟨rfl, rfl, rfl, rfl, rfl,
    mathCeilDiv_eq_ceil db.length (parseIntOr 10 limitQ) hl1⟩

/-- Witness for C4 on a three-row table with page 2 and limit 2. -/
theorem c4_witness :
    (getTable ["items"] [[("id", "1")], [("id", "2")], [("id", "3")]] "items"
        (some "2") (some "2")).totalPages = ⌈((3 : Nat) : ℚ) / ((2 : Int) : ℚ)⌉ ∧
    (getTable ["items"] [[("id", "1")], [("id", "2")], [("id", "3")]] "items"
        (some "2") (some "2")).rows = [[("id", "3")]] := by
  have h := c4_pagination_math ["items"] [[("id", "1")], [("id", "2")], [("id", "3")]]
    "items" (some "2") (some "2") 2 2 (by decide) (by rfl) (by rfl) (by decide) (by decide)
  refine ⟨h.2.2.2.2.2, ?_⟩
  rw [h.2.2.2.1]; decide

/-- C5: on a valid table with positive page and limit, the paginated read
returns 200, at most limit rows, echoes the requested page as currentPage,
and a page past the last available page yields an empty row list rather than
an error. -/
theorem c5_select_page_guarantees (catalog : List String) (db : List Row)
    (table : String) (pageQ limitQ : Option String) (page limit : Int)
    (hvalid : isValidTable catalog table = true)
    (hp : parseIntOr 1 pageQ = page) (hl : parseIntOr 10 limitQ = limit)
    (hp1 : 1 ≤ page) (hl1 : 1 ≤ limit) :
    (getTable catalog db table pageQ limitQ).status = 200 ∧
    (getTable catalog db table pageQ limitQ).rows.length ≤ limit.toNat ∧
    (getTable catalog db table pageQ limitQ).currentPage = page ∧
    ((getTable catalog db table pageQ limitQ).totalPages < page →
      (getTable catalog db table pageQ limitQ).rows = []) := by
  subst hp; subst hl
  rw [getTable_eq_ok catalog db table pageQ limitQ hvalid hp1 hl1]
  refine ⟨rfl, ?_, rfl, ?_⟩
  · exact List.length_take_le _ _
  · intro hlt
    have hlt2 : mathCeilDiv db.length (parseIntOr 10 limitQ) < parseIntOr 1 pageQ := hlt
    have h4 : (db.length : Int) ≤ (parseIntOr 1 pageQ - 1) * parseIntOr 10 limitQ := by
      have hh := le_mathCeilDiv_mul db.length (parseIntOr 10 limitQ) hl1
      have hmul : mathCeilDiv db.length (parseIntOr 10 limitQ) * parseIntOr 10 limitQ ≤
          (parseIntOr 1 pageQ - 1) * parseIntOr 10 limitQ :=
        mul_le_mul_of_nonneg_right (by omega) (by omega)
      linarith
    have h5 : db.length ≤ ((parseIntOr 1 pageQ - 1) * parseIntOr 10 limitQ).toNat := by
      omega
    simp [List.drop_eq_nil_of_le h5]

/-- Witness for C5: requesting page 5 of a three-row table with limit 2
still answers 200 with an empty row list. -/
theorem c5_witness :
    (getTable ["items"] [[("id", "1")], [("id", "2")], [("id", "3")]] "items"
        (some "5") (some "2")).status = 200 ∧
    (getTable ["items"] [[("id", "1")], [("id", "2")], [("id", "3")]] "items"
        (some "5") (some "2")).rows = [] := by
  have h := c5_select_page_guarantees ["items"]
    [[("id", "1")], [("id", "2")], [("id", "3")]] "items" (some "5") (some "2") 5 2
    (by decide) (by rfl) (by rfl) (by decide) (by decide)
  exact ⟨h.1, h.2.2.2 (by decide)⟩

/-- C10: a page or limit query parameter that is missing, non-numeric, or
parsing to 0 silently falls back to the defaults 1 and 10; page=0 produces
exactly the response of page=1 and limit=abc exactly that of limit=10; and on
a valid table such malformed parameters still yield a 200, never a 4xx
rejection. -/
theorem c10_malformed_params_default (catalog : List String) (db : List Row)
    (table : String) (pageQ limitQ : Option String) (s : Option String)
    (hs : s = none ∨
      ∃ str, s = some str ∧ (jsParseInt str = none ∨ jsParseInt str = some 0))
    (hvalid : isValidTable catalog table = true) :
    parseIntOr 1 s = 1 ∧ parseIntOr 10 s = 10 ∧
    getTable catalog db table (some "0") limitQ =
      getTable catalog db table (some "1") limitQ ∧
    getTable catalog db table pageQ (some "abc") =
      getTable catalog db table pageQ (some "10") ∧
    (getTable catalog db table s s).status = 200 := by
  have hfall : parseIntOr 1 s = 1 ∧ parseIntOr 10 s = 10 := by
    rcases hs with h | ⟨str, hstr, h | h⟩
    · subst h; exact ⟨rfl, rfl⟩
    · subst hstr; simp [parseIntOr, h]
    · subst hstr; simp [parseIntOr, h]
  refine ⟨hfall.1, hfall.2, rfl, rfl, ?_⟩
  rw [getTable_eq_ok catalog db table s s hvalid (by simp [hfall.1]) (by simp [hfall.2])]

/-- Witness for C10 with the non-numeric parameter value abc for both page
and limit. -/
theorem c10_witness :
    parseIntOr 1 (some "abc") = 1 ∧ parseIntOr 10 (some "abc") = 10 ∧
    (getTable ["items"] [[("id", "1")]] "items" (some "abc") (some "abc")).status = 200 := by
  have h := c10_malformed_params_default ["items"] [[("id", "1")]] "items" none none
    (some "abc") (Or.inr ⟨"abc", rfl, Or.inl (by decide)⟩) (by decide)
  exact ⟨h.1, h.2.1, h.2.2.2.2⟩

/-- C2: for every dynamic operation the SQL text is a function of the table
and the payload keys alone - two payloads with the same keys yield the same
text, so no data value, id, limit or offset ever appears in it - while every
data value, the id, and the limit and offset travel exclusively in the
positional parameter list, and a successful insert stores the payload row
literally. -/
theorem c2_values_only_in_params (catalog : List String) (db : List Row)
    (table id : String) (data data' : Row) (pageQ limitQ : Option String)
    (hkeys : keysOf data = keysOf data')
    (hvalid : isValidTable catalog table = true) :
    insertSQL table data = insertSQL table data' ∧
    updateSQL table data = updateSQL table data' ∧
    (postTable catalog db table data).queries = [(insertSQL table data, valuesOf data)] ∧
    (putTable catalog db table id data).queries =
      [(updateSQL table data, valuesOf data ++ [id])] ∧
    (deleteTable catalog db table id).queries = [(deleteSQL table, [id])] ∧
    (getTable catalog db table pageQ limitQ).queries =
      [(countSQL table, []),
       (selectSQL table, [toString (parseIntOr 10 limitQ),
                          toString ((parseIntOr 1 pageQ - 1) * parseIntOr 10 limitQ)])] ∧
    (data ≠ [] → (postTable catalog db table data).db = db ++ [data]) := by
  have hlen : (valuesOf data).length = (valuesOf data').length := by
    have hc := congrArg List.length hkeys
    simpa [keysOf, valuesOf] using hc
  refine ⟨?_, ?_, ?_, ?_, ?_, ?_, ?_⟩
  · simp [insertSQL, columnsOf, hkeys, hlen]
  · simp [updateSQL, updatesOf, hkeys, hlen]
  · simp only [postTable, hvalid]
    simp only [Bool.true_eq_false, if_false]
    split <;> rfl
  · simp only [putTable, hvalid]
    simp only [Bool.true_eq_false, if_false]
    split <;> rfl
  · simp [deleteTable, hvalid]
  · simp only [getTable, hvalid]
    simp only [Bool.true_eq_false, if_false]
    split <;> rfl
  · intro hne
    cases data with
    | nil => exact absurd rfl hne
    | cons hd tl => simp [postTable, hvalid, dbInsert]

/-- Witness for C2: an injection attempt passed as a column value leaves the
SQL text identical to that of a harmless value, travels only in the
parameter list, and is stored literally. -/
theorem c2_witness :
    insertSQL "items" [("name", "\x27); DROP TABLE items; --")] =
      insertSQL "items" [("name", "x")] ∧
    (postTable ["items"] [] "items" [("name", "\x27); DROP TABLE items; --")]).db =
      [[("name", "\x27); DROP TABLE items; --")]] ∧
    (postTable ["items"] [] "items" [("name", "\x27); DROP TABLE items; --")]).queries =
      [("INSERT INTO items (name) VALUES ($1) RETURNING *",
        ["\x27); DROP TABLE items; --"])] := by
  have h := c2_values_only_in_params ["items"] [] "items" "1"
    [("name", "\x27); DROP TABLE items; --")] [("name", "x")] none none rfl (by decide)
  refine ⟨h.1, ?_, ?_⟩
  · rw [h.2.2.2.2.2.2 (by decide)]
    decide
  · rw [h.2.2.1]
    decide

/-- C7: deletion is idempotent: on a valid table the delete handler answers
204 even when no row matches the id, leaves the table unchanged in that
case, and running the same delete a second time yields the identical 204
response and table state. -/
theorem c7_delete_idempotent (catalog : List String) (db : List Row)
    (table id : String) (hvalid : isValidTable catalog table = true) :
    (deleteTable catalog db table id).status = 204 ∧
    ((∀ r ∈ db, idMatches id r = false) → (deleteTable catalog db table id).db = db) ∧
    deleteTable catalog (deleteTable catalog db table id).db table id =
      deleteTable catalog db table id := by
  refine ⟨by simp [deleteTable, hvalid], ?_, ?_⟩
  · intro h
    simp only [deleteTable, hvalid]
    simp only [Bool.true_eq_false, if_false]
    exact List.filter_eq_self.mpr (fun r hr => by simp [h r hr])
  · simp [deleteTable, hvalid, dbDelete, List.filter_filter]

/-- Witness for C7: deleting a missing id answers 204 and leaves the single
stored row in place. -/
theorem c7_witness :
    (deleteTable ["items"] [[("id", "1"), ("name", "a")]] "items" "2").status = 204 ∧
    (deleteTable ["items"] [[("id", "1"), ("name", "a")]] "items" "2").db =
      [[("id", "1"), ("name", "a")]] := by
  have h := c7_delete_idempotent ["items"] [[("id", "1"), ("name", "a")]] "items" "2"
    (by decide)
  exact ⟨h.1, h.2.1 (by decide)⟩

/-- C8: the dynamic update touches exactly the columns named in the payload
on the rows matching the id: with payload name = y the response is 200 and
returns the first matching row with its name column set to y and every other
column unchanged; the new state maps only matching rows through the SET
clause, and every non-matching row keeps its position and value. -/
theorem c8_update_frame (catalog : List String) (db : List Row)
    (table id y : String) (r : Row)
    (hvalid : isValidTable catalog table = true)
    (hr : db.find? (idMatches id) = some r)
    (hname : (r.lookup "name").isSome = true) :
    (putTable catalog db table id [("name", y)]).status = 200 ∧
    (putTable catalog db table id [("name", y)]).row =
      some (setCols [("name", y)] r) ∧
    (setCols [("name", y)] r).lookup "name" = some y ∧
    (∀ k, ¬ (k = "name") → (setCols [("name", y)] r).lookup k = r.lookup k) ∧
    (putTable catalog db table id [("name", y)]).db =
      db.map (fun row => if idMatches id row then setCols [("name", y)] row else row) ∧
    (∀ (i : Nat) (r0 : Row), db[i]? = some r0 → idMatches id r0 = false →
      (putTable catalog db table id [("name", y)]).db[i]? = some r0) := by
  have hput : putTable catalog db table id [("name", y)] =
      { status := 200,
        db := db.map (fun row => if idMatches id row then setCols [("name", y)] row else row),
        row := ((db.filter (idMatches id)).map (setCols [("name", y)])).head?,
        queries := [(updateSQL table [("name", y)], valuesOf [("name", y)] ++ [id])] } := by
    simp [putTable, hvalid, dbUpdate]
  refine ⟨by rw [hput], ?_, ?_, ?_, by rw [hput], ?_⟩
  · rw [hput]
    show ((db.filter (idMatches id)).map (setCols [("name", y)])).head? = _
    rw [List.head?_map, head?_filter_eq_find?, hr]
    rfl
  · rw [lookup_setCols]
    obtain ⟨v, hv⟩ := Option.isSome_iff_exists.mp hname
    rw [hv]
    rfl
  · intro k hk
    rw [lookup_setCols]
    have hbeq : (k == "name") = false := beq_eq_false_iff_ne.mpr hk
    have hlk : (([("name", y)] : Row).lookup k) = none := by
      simp [List.lookup, hbeq]
    rw [hlk]
    cases r.lookup k <;> rfl
  · intro i r0 hi hm
    rw [hput]
    show (db.map (fun row => if idMatches id row then setCols [("name", y)] row else row))[i]? =
      some r0
    rw [List.getElem?_map, hi]
    simp [hm]

/-- Witness for C8: updating name to y on a three-column row keeps id and
value and changes only name. -/
theorem c8_witness :
    (putTable ["items"] [[("id", "1"), ("name", "a"), ("value", "7")]] "items" "1"
        [("name", "y")]).status = 200 ∧
    (putTable ["items"] [[("id", "1"), ("name", "a"), ("value", "7")]] "items" "1"
        [("name", "y")]).row =
      some [("id", "1"), ("name", "y"), ("value", "7")] := by
  have h := c8_update_frame ["items"] [[("id", "1"), ("name", "a"), ("value", "7")]]
    "items" "1" "y" [("id", "1"), ("name", "a"), ("value", "7")]
    (by decide) (by decide) (by decide)
  refine ⟨h.1, ?_⟩
  rw [h.2.1]
  decide

end DataSetup
